import Mathlib

/-!
Verification of the MCP HTTP-to-stdio bridge
(`src/mcp_http_to_stdio/bridge.py`) against its specification.

The bridge reads newline-delimited JSON-RPC messages from standard input,
forwards each decoded message to an HTTP endpoint, and writes at most one
response line per message to standard output.  Below, the Python code is
shallowly embedded: JSON values become an inductive type, the outcome of the
outbound HTTP call (performed by the external `requests` library) is an
oracle parameter, and exceptions escaping a handler become `Except.error`.
-/

/-- A JSON value, as produced by `json.loads` on one input line.  Objects
keep their members in insertion order, mirroring Python dicts. -/
inductive Json where
  | null
  | bool (b : Bool)
  | num (n : Int)
  | str (s : String)
  | arr (elems : List Json)
  | obj (members : List (String × Json))

/-- Embeds Python `d.get(key)` on a decoded JSON object: the value stored
under the first occurrence of `key`, or `none` when the key is absent
(`json.loads` never produces duplicate keys, so first = only). -/
def getKey : List (String × Json) → String → Option Json
  | [], _ => none
  | (k, v) :: rest, key => if k = key then some v else getKey rest key

/-- The per-process session state of `MCPClientWrapper.__init__`
(bridge.py lines 55-65): credential, endpoint URL and timeout bound. -/
structure MCPClientWrapper where
  share_key : String
  url : String
  timeout : Nat

/-- The retry policy configured in `MCPClientWrapper.__init__`
(bridge.py lines 71-76): the keyword arguments passed to
`urllib3.util.retry.Retry`. -/
structure RetryConfig where
  total : Nat
  backoff_factor : Nat
  status_forcelist : List Nat
  allowed_methods : List String

/-- Embeds the `retry_strategy` object built at bridge.py lines 71-76. -/
def retry_strategy : RetryConfig :=
  { total := 3
    backoff_factor := 1
    status_forcelist := [429, 500, 502, 503, 504]
    allowed_methods := ["POST"] }

/-- Embeds `urllib3.util.retry.Retry.get_backoff_time` (urllib3 2.x, the
library contract the source's comment `# 1s, 2s, 4s delays` relies on):
before the first retry the delay is 0; the n-th retry sleeps
`backoff_factor * 2^(n-1)` seconds, clamped at `DEFAULT_BACKOFF_MAX = 120`. -/
def get_backoff_time (c : RetryConfig) (consecutive_errors : Nat) : Nat :=
  if consecutive_errors < 1 then 0
  else min 120 (c.backoff_factor * 2 ^ (consecutive_errors - 1))

/-- Whether `Retry` retries an HTTP status: membership in `status_forcelist`. -/
def is_retryable_status (c : RetryConfig) (status : Nat) : Bool :=
  c.status_forcelist.contains status

/-- Whether `Retry` retries a request method: membership in `allowed_methods`. -/
def is_method_retryable (c : RetryConfig) (method : String) : Bool :=
  c.allowed_methods.contains method

/-- Outcome of `self.session.post(...)` together with the body decode, the
oracle for everything the external HTTP stack does in `handle_request`:
  * `resp status reason body` — `post` returned a response with this status
    code and reason phrase; `body` is what `response.json()` would yield
    (`Except.error` when the body is not valid JSON, in which case
    `response.json()` raises `requests.exceptions.JSONDecodeError`, a
    `RequestException`);
  * `reqExc e` — `post` raised `requests.exceptions.RequestException`
    (connection fault, timeout, retries exhausted) with message `e`;
  * `otherExc e` — some other exception with message `e` arose inside the
    `try` block (bridge.py lines 112-152) before a response was obtained. -/
inductive HttpResult where
  | resp (status : Nat) (reason : String) (body : Except String Json)
  | reqExc (e : String)
  | otherExc (e : String)

/-- Embeds `str(HTTPError)` as raised by `response.raise_for_status()`
(bridge.py line 137): requests formats
`"{status} Client Error: {reason} for url: {url}"` for 4xx and
`"{status} Server Error: {reason} for url: {url}"` for 5xx. -/
def raise_for_status_msg (w : MCPClientWrapper) (status : Nat) (reason : String) : String :=
  toString status ++ (if status < 500 then " Client Error: " else " Server Error: ")
    ++ reason ++ " for url: " ++ w.url

/-- The JSON-RPC error object literally built at bridge.py lines 161-168,
176-183 and 207-214: `{"jsonrpc": "2.0", "error": {"code": c, "message": m},
"id": i}`, with the member order of the Python dict literals. -/
def errorEnvelope (code : Int) (message : String) (idVal : Json) : Json :=
  Json.obj
    [("jsonrpc", Json.str "2.0"),
     ("error", Json.obj [("code", Json.num code), ("message", Json.str message)]),
     ("id", idVal)]

/-- Embeds `MCPClientWrapper.handle_request` (bridge.py lines 98-183).
`Except.error` models an exception escaping the method: line 107
(`request.get('method')`) runs before the `try` block, so any decoded value
that is not a JSON object raises `AttributeError` out of the method.  For
objects the control flow is: POST (oracle) → `raise_for_status` (raises
`HTTPError`, a `RequestException`, for 400 ≤ status < 600) → return `None`
on 204 → `response.json()` → return `None` for notifications → return the
body.  Both `except` clauses return `None` for notifications, else an
error envelope with code -32603 and `id = request.get('id')`. -/
def handle_request (w : MCPClientWrapper) (request : Json) (upstream : HttpResult) :
    Except String (Option Json) :=
  match request with
  | Json.obj members =>
    let is_notification := (getKey members "id").isNone
    let idVal := (getKey members "id").getD Json.null
    match upstream with
    | .reqExc e =>
        .ok (if is_notification then none
          else some (errorEnvelope (-32603) ("Share Server request failed: " ++ e) idVal))
    | .otherExc e =>
        .ok (if is_notification then none
          else some (errorEnvelope (-32603) ("Internal error: " ++ e) idVal))
    | .resp status reason body =>
        if 400 ≤ status ∧ status < 600 then
          .ok (if is_notification then none
            else some (errorEnvelope (-32603)
              ("Share Server request failed: " ++ raise_for_status_msg w status reason) idVal))
        else if status = 204 then
          .ok none
        else
          match body with
          | .error e =>
              .ok (if is_notification then none
                else some (errorEnvelope (-32603) ("Share Server request failed: " ++ e) idVal))
          | .ok result =>
              .ok (if is_notification then none else some result)
  | _ => .error "AttributeError"

/-- One line of standard input as the loop at bridge.py lines 190-196 sees
it after `line.strip()` and `json.loads`:
  * `empty` — stripped to the empty string, skipped;
  * `invalid e` — non-empty but `json.loads` raised `JSONDecodeError` with
    message `e`;
  * `msg j` — decoded to the JSON value `j`. -/
inductive Line where
  | empty
  | invalid (e : String)
  | msg (j : Json)

/-- The parse-error envelope written at bridge.py lines 207-215:
code -32700, message `"Parse error: ..."`, `id` null. -/
def parse_error_envelope (e : String) : Json :=
  errorEnvelope (-32700) ("Parse error: " ++ e) Json.null

/-- Embeds one iteration of the stdio loop body (bridge.py lines 190-216):
the output lines written for one input line, or `Except.error` when an
exception other than `json.JSONDecodeError` escapes `handle_request`
(the inner `except` at line 205 catches only `JSONDecodeError`). -/
def runStep (w : MCPClientWrapper) : Line × HttpResult → Except String (List Json)
  | (.empty, _) => .ok []
  | (.invalid e, _) => .ok [parse_error_envelope e]
  | (.msg j, upstream) =>
      match handle_request w j upstream with
      | .error e => .error e
      | .ok none => .ok []
      | .ok (some response) => .ok [response]

/-- Embeds `MCPClientWrapper.run` (bridge.py lines 185-222) over a finite
input stream, each line paired with its upstream oracle: returns the list of
output lines written to standard output, and `true` for a clean exit at
end-of-stream versus `false` for the fatal path (outer `except Exception` →
`sys.exit(1)`), which stops reading further lines. -/
def run (w : MCPClientWrapper) : List (Line × HttpResult) → List Json × Bool
  | [] => ([], true)
  | item :: rest =>
      match runStep w item with
      | .error _ => ([], false)
      | .ok out =>
          match run w rest with
          | (outs, ok) => (out ++ outs, ok)

/-! ### Observers on envelopes and upstream outcomes -/

/-- The `id` member of a JSON-RPC envelope (a JSON object), if any. -/
def envId : Json → Option Json
  | Json.obj fields => getKey fields "id"
  | _ => none

/-- The `error.code` member of a JSON-RPC envelope, if any. -/
def envErrorCode : Json → Option Json
  | Json.obj fields =>
      match getKey fields "error" with
      | some (Json.obj err) => getKey err "code"
      | _ => none
  | _ => none

/-- The `error.message` member of a JSON-RPC envelope, if any. -/
def envErrorMessage : Json → Option Json
  | Json.obj fields =>
      match getKey fields "error" with
      | some (Json.obj err) => getKey err "message"
      | _ => none
  | _ => none

/-- An upstream outcome on which `handle_request` takes one of its failure
paths: an exception from `post`, an error status (`raise_for_status`
raises for 400-599), or a success body that is not valid JSON.  Status 204
never fails (the body is never decoded), and a decodable body on any other
non-error status succeeds. -/
def upFails : HttpResult → Bool
  | .reqExc _ => true
  | .otherExc _ => true
  | .resp status _ body =>
      if 400 ≤ status ∧ status < 600 then true
      else if status = 204 then false
      else
        match body with
        | .error _ => true
        | .ok _ => false

/-- Whether the upstream outcome is an HTTP 204 response. -/
def is204 : HttpResult → Bool
  | .resp status _ _ => status == 204
  | _ => false

/-- Whether one loop item carries a decoded JSON object. -/
def isObjMsg : Line → Bool
  | Line.msg (Json.obj _) => true
  | _ => false

/-- Whether one loop item carries a request: a decoded JSON object whose
members contain the key `id` (the classification at bridge.py line 108). -/
def isReqItem : Line × HttpResult → Bool
  | (Line.msg (Json.obj ms), _) => (getKey ms "id").isSome
  | _ => false

/-- The single output line a request item produces (meaningful when
`runStep` yields exactly one line). -/
def requestResponse (w : MCPClientWrapper) (p : Line × HttpResult) : Json :=
  match runStep w p with
  | .ok [r] => r
  | _ => Json.null

/-! ### Helper lemmas about `handle_request` and the loop -/

theorem envId_errorEnvelope (code : Int) (message : String) (idVal : Json) :
    envId (errorEnvelope code message idVal) = some idVal := rfl

theorem envErrorCode_errorEnvelope (code : Int) (message : String) (idVal : Json) :
    envErrorCode (errorEnvelope code message idVal) = some (Json.num code) := rfl

theorem envErrorMessage_errorEnvelope (code : Int) (message : String) (idVal : Json) :
    envErrorMessage (errorEnvelope code message idVal) = some (Json.str message) := rfl

theorem handle_request_notif (w : MCPClientWrapper) (ms : List (String × Json))
    (up : HttpResult) (h : getKey ms "id" = none) :
    handle_request w (Json.obj ms) up = .ok none := by
  cases up with
  | reqExc e => simp [handle_request, h]
  | otherExc e => simp [handle_request, h]
  | resp status reason body =>
      simp only [handle_request, h, Option.isNone_none, if_true]
      split
      · rfl
      · split
        · rfl
        · cases body <;> rfl

theorem handle_request_fail (w : MCPClientWrapper) (ms : List (String × Json))
    (up : HttpResult) (hid : (getKey ms "id").isSome = true) (hfail : upFails up = true) :
    ∃ m, handle_request w (Json.obj ms) up =
      .ok (some (errorEnvelope (-32603) m ((getKey ms "id").getD Json.null))) := by
  obtain ⟨v, hv⟩ := Option.isSome_iff_exists.mp hid
  cases up with
  | reqExc e =>
      exact ⟨"Share Server request failed: " ++ e, by simp [handle_request, hv]⟩
  | otherExc e =>
      exact ⟨"Internal error: " ++ e, by simp [handle_request, hv]⟩
  | resp status reason body =>
      by_cases h4 : 400 ≤ status ∧ status < 600
      · exact ⟨"Share Server request failed: " ++ raise_for_status_msg w status reason,
          by simp [handle_request, hv, h4]⟩
      · by_cases h204 : status = 204
        · simp [upFails, h4, h204] at hfail
        · cases body with
          | error e =>
              exact ⟨"Share Server request failed: " ++ e,
                by simp [handle_request, hv, h4, h204]⟩
          | ok r => simp [upFails, h4, h204] at hfail

theorem handle_request_204 (w : MCPClientWrapper) (ms : List (String × Json))
    (reason : String) (body : Except String Json) :
    handle_request w (Json.obj ms) (.resp 204 reason body) = .ok none := by
  have h4 : ¬(400 ≤ 204 ∧ 204 < 600) := by omega
  simp [handle_request, h4]

theorem handle_request_success (w : MCPClientWrapper) (ms : List (String × Json))
    (status : Nat) (reason : String) (r : Json)
    (hid : (getKey ms "id").isSome = true)
    (h4 : ¬(400 ≤ status ∧ status < 600)) (h204 : status ≠ 204) :
    handle_request w (Json.obj ms) (.resp status reason (.ok r)) = .ok (some r) := by
  obtain ⟨v, hv⟩ := Option.isSome_iff_exists.mp hid
  simp [handle_request, hv, h4, h204]

theorem handle_request_obj_ok (w : MCPClientWrapper) (ms : List (String × Json))
    (up : HttpResult) : ∃ o, handle_request w (Json.obj ms) up = .ok o := by
  cases up with
  | reqExc e => exact ⟨_, rfl⟩
  | otherExc e => exact ⟨_, rfl⟩
  | resp status reason body =>
      simp only [handle_request]
      split
      · exact ⟨_, rfl⟩
      · split
        · exact ⟨_, rfl⟩
        · cases body <;> exact ⟨_, rfl⟩

theorem runStep_notif (w : MCPClientWrapper) (ms : List (String × Json))
    (up : HttpResult) (h : getKey ms "id" = none) :
    runStep w (Line.msg (Json.obj ms), up) = .ok [] := by
  simp [runStep, handle_request_notif w ms up h]

theorem runStep_req_one (w : MCPClientWrapper) (ms : List (String × Json)) (up : HttpResult)
    (hid : (getKey ms "id").isSome = true) (h204 : is204 up = false) :
    ∃ r, runStep w (Line.msg (Json.obj ms), up) = .ok [r] := by
  by_cases hf : upFails up = true
  · obtain ⟨m, hm⟩ := handle_request_fail w ms up hid hf
    exact ⟨errorEnvelope (-32603) m ((getKey ms "id").getD Json.null),
      by simp [runStep, hm]⟩
  · cases up with
    | reqExc e => simp [upFails] at hf
    | otherExc e => simp [upFails] at hf
    | resp status reason body =>
        have hs204 : status ≠ 204 := by simpa [is204] using h204
        cases body with
        | error e =>
            exfalso
            apply hf
            by_cases hcon : 400 ≤ status ∧ status < 600
            · simp [upFails, hcon]
            · simp [upFails, hcon, hs204]
        | ok r =>
            have hs4 : ¬(400 ≤ status ∧ status < 600) := by
              intro hcon
              exact hf (by simp [upFails, hcon])
            exact ⟨r, by
              simp [runStep, handle_request_success w ms status reason r hid hs4 hs204]⟩

/-! ### Concrete fixtures for witnesses and counterexamples -/

/-- A concrete wrapper configuration, as built by `main`. -/
def w0 : MCPClientWrapper :=
  { share_key := "token", url := "http://localhost:8080/mcp", timeout := 300 }

/-- A concrete request: `{"jsonrpc": "2.0", "method": "tools/list", "id": 1}`. -/
def req_id1 : Json :=
  Json.obj [("jsonrpc", Json.str "2.0"), ("method", Json.str "tools/list"),
    ("id", Json.num 1)]

/-- A concrete upstream success body carrying a different `id` than `req_id1`:
`{"jsonrpc": "2.0", "result": {"tools": []}, "id": 2}`. -/
def body_id2 : Json :=
  Json.obj [("jsonrpc", Json.str "2.0"), ("result", Json.obj [("tools", Json.arr [])]),
    ("id", Json.num 2)]

/-- A concrete notification: `{"jsonrpc": "2.0", "method":
"notifications/initialized"}` (no `id` member). -/
def notif0 : List (String × Json) :=
  [("jsonrpc", Json.str "2.0"), ("method", Json.str "notifications/initialized")]

/-- A concrete request with `id` 7: `{"method": "tools/list", "id": 7}`. -/
def req7 : List (String × Json) :=
  [("method", Json.str "tools/list"), ("id", Json.num 7)]

/-! ### Claims -/

/-- Claim C3 (confirmed): for every input line that decodes to a JSON object
with no `id` member (a notification), zero output lines are written — for
every upstream outcome, including exhausted retries, error statuses and
unexpected exceptions — and the loop state is exactly as if the line had
not occurred. -/
theorem C3_notification_zero_output (w : MCPClientWrapper) (ms : List (String × Json))
    (up : HttpResult) (rest : List (Line × HttpResult)) (h : getKey ms "id" = none) :
    runStep w (Line.msg (Json.obj ms), up) = .ok [] ∧
    run w ((Line.msg (Json.obj ms), up) :: rest) = run w rest := by
  have hs := runStep_notif w ms up h
  refine ⟨hs, ?_⟩
  simp [run, hs]

/-- Witness for C3 at a concrete notification and a failed upstream call. -/
theorem C3_notification_zero_output_witness :
    getKey notif0 "id" = none ∧
    (runStep w0 (Line.msg (Json.obj notif0), HttpResult.reqExc "connection refused") = .ok [] ∧
     run w0 [(Line.msg (Json.obj notif0), HttpResult.reqExc "connection refused")] = run w0 []) :=
  ⟨rfl, C3_notification_zero_output w0 notif0 (HttpResult.reqExc "connection refused") [] rfl⟩

/-- Claim C4 (confirmed): for every input line that is non-empty but not
valid JSON, exactly one Error Envelope line is written, with code -32700 and
`id` null, and the loop continues with the remaining lines unaffected. -/
theorem C4_parse_error_envelope (w : MCPClientWrapper) (e : String) (up : HttpResult)
    (rest : List (Line × HttpResult)) :
    run w ((Line.invalid e, up) :: rest) =
      (parse_error_envelope e :: (run w rest).1, (run w rest).2) ∧
    envErrorCode (parse_error_envelope e) = some (Json.num (-32700)) ∧
    envId (parse_error_envelope e) = some Json.null := by
  refine ⟨?_, rfl, rfl⟩
  simp [run, runStep]

/-- Claim C5 (confirmed): for every request (object with an `id` member)
whose upstream call fails — exception from the transport (retries exhausted,
connection fault), error HTTP status, or undecodable success body — the
result is an Error Envelope with code -32603, a string message, and `id`
equal to the value stored under the request's `id` key. -/
theorem C5_failure_error_envelope (w : MCPClientWrapper) (ms : List (String × Json))
    (up : HttpResult) (hid : (getKey ms "id").isSome = true) (hfail : upFails up = true) :
    ∃ env, handle_request w (Json.obj ms) up = .ok (some env) ∧
      envErrorCode env = some (Json.num (-32603)) ∧
      (∃ m, envErrorMessage env = some (Json.str m)) ∧
      envId env = getKey ms "id" := by
  obtain ⟨m, hm⟩ := handle_request_fail w ms up hid hfail
  obtain ⟨v, hv⟩ := Option.isSome_iff_exists.mp hid
  refine ⟨_, hm, envErrorCode_errorEnvelope _ _ _, ⟨m, envErrorMessage_errorEnvelope _ _ _⟩, ?_⟩
  simp [envId_errorEnvelope, hv]

/-- Witness for C5 at `{"method": "tools/list", "id": 7}` with the upstream
unreachable. -/
theorem C5_failure_error_envelope_witness :
    (getKey req7 "id").isSome = true ∧
    upFails (HttpResult.reqExc "unreachable") = true ∧
    (∃ env, handle_request w0 (Json.obj req7) (HttpResult.reqExc "unreachable") = .ok (some env) ∧
      envErrorCode env = some (Json.num (-32603)) ∧
      (∃ m, envErrorMessage env = some (Json.str m)) ∧
      envId env = getKey req7 "id") :=
  ⟨rfl, rfl, C5_failure_error_envelope w0 req7 (HttpResult.reqExc "unreachable") rfl rfl⟩

/-- Claim C6 (confirmed): for every decoded JSON object — request or
notification alike — whose upstream call returns HTTP 204, `handle_request`
returns `None` and the loop writes no output line for it. -/
theorem C6_204_no_output (w : MCPClientWrapper) (ms : List (String × Json))
    (reason : String) (body : Except String Json) (rest : List (Line × HttpResult)) :
    handle_request w (Json.obj ms) (HttpResult.resp 204 reason body) = .ok none ∧
    run w ((Line.msg (Json.obj ms), HttpResult.resp 204 reason body) :: rest) = run w rest := by
  have h := handle_request_204 w ms reason body
  refine ⟨h, ?_⟩
  simp [run, runStep, h]

/-- Claim C7 (confirmed): the retry policy configured on the session retries
up to 3 additional attempts, exactly the statuses {429, 500, 502, 503, 504},
and only the POST method; under the library's backoff contract
(`backoff_factor * 2^(n-1)`, base factor 1) the sleeps before retries
1, 2, 3 are 1s, 2s, 4s — doubling from a 1-second base. -/
theorem C7_retry_policy :
    retry_strategy.total = 3 ∧
    retry_strategy.status_forcelist = [429, 500, 502, 503, 504] ∧
    retry_strategy.allowed_methods = ["POST"] ∧
    List.map (get_backoff_time retry_strategy) [1, 2, 3] = [1, 2, 4] ∧
    is_retryable_status retry_strategy 429 = true ∧
    is_retryable_status retry_strategy 503 = true ∧
    is_retryable_status retry_strategy 404 = false ∧
    is_method_retryable retry_strategy "POST" = true ∧
    is_method_retryable retry_strategy "GET" = false := by
  refine ⟨rfl, rfl, rfl, ?_, rfl, rfl, rfl, rfl, rfl⟩
  simp [retry_strategy, get_backoff_time]

/-- Claim C10 (confirmed): a message object holding the key `id` with value
null is classified as a request (key presence, not value), and when its
upstream call fails the bridge writes one Error Envelope whose `id` member is
null — the copied value — rather than suppressing the response. -/
theorem C10_null_id_is_request (w : MCPClientWrapper) (ms : List (String × Json))
    (up : HttpResult) (hid : getKey ms "id" = some Json.null) (hfail : upFails up = true) :
    ∃ env, handle_request w (Json.obj ms) up = .ok (some env) ∧
      runStep w (Line.msg (Json.obj ms), up) = .ok [env] ∧
      envId env = some Json.null ∧
      envErrorCode env = some (Json.num (-32603)) := by
  obtain ⟨m, hm⟩ := handle_request_fail w ms up (by simp [hid]) hfail
  refine ⟨_, hm, by simp [runStep, hm], ?_, envErrorCode_errorEnvelope _ _ _⟩
  simp [envId_errorEnvelope, hid]

/-- Witness for C10 at `{"method": "x", "id": null}` with a transport
exception. -/
theorem C10_null_id_is_request_witness :
    getKey [("method", Json.str "x"), ("id", Json.null)] "id" = some Json.null ∧
    upFails (HttpResult.reqExc "down") = true ∧
    (∃ env, handle_request w0 (Json.obj [("method", Json.str "x"), ("id", Json.null)])
        (HttpResult.reqExc "down") = .ok (some env) ∧
      runStep w0 (Line.msg (Json.obj [("method", Json.str "x"), ("id", Json.null)]),
        HttpResult.reqExc "down") = .ok [env] ∧
      envId env = some Json.null ∧
      envErrorCode env = some (Json.num (-32603))) :=
  ⟨rfl, rfl, C10_null_id_is_request w0 [("method", Json.str "x"), ("id", Json.null)]
    (HttpResult.reqExc "down") rfl rfl⟩

/-- Counterexample for claim C1: the claim asserts every decodable request
yields exactly one output line whose `id` equals the request's `id`.  At the
concrete request `req_id1` (`id` 1): an upstream HTTP 204 yields zero output
lines, and an upstream 200 whose body carries `id` 2 yields one line whose
`id` is 2, not 1 — the body is passed through verbatim, never rewritten. -/
theorem C1_counterexample :
    (run w0 [(Line.msg req_id1, HttpResult.resp 204 "No Content" (Except.ok Json.null))]).1
      = [] ∧
    (run w0 [(Line.msg req_id1, HttpResult.resp 200 "OK" (Except.ok body_id2))]).1
      = [body_id2] ∧
    envId req_id1 = some (Json.num 1) ∧
    envId body_id2 = some (Json.num 2) :=
  ⟨rfl, rfl, rfl, rfl⟩

/-- Claim C1 (corrected): for every input line that decodes to a request
(object with an `id` key), at most one output line is written: when the
upstream call fails, exactly one Error Envelope with code -32603 and the
request's `id`; when the upstream returns HTTP 204, no line; when the
upstream returns a decodable success body, exactly one line holding that
body verbatim (whose `id` is the upstream's, not rewritten). -/
theorem C1_request_output (w : MCPClientWrapper) (ms : List (String × Json))
    (up : HttpResult) (hid : (getKey ms "id").isSome = true) :
    (upFails up = true →
      ∃ env, runStep w (Line.msg (Json.obj ms), up) = .ok [env] ∧
        envId env = getKey ms "id" ∧ envErrorCode env = some (Json.num (-32603))) ∧
    (∀ reason body, up = HttpResult.resp 204 reason body →
      runStep w (Line.msg (Json.obj ms), up) = .ok []) ∧
    (∀ status reason r, up = HttpResult.resp status reason (Except.ok r) →
      ¬(400 ≤ status ∧ status < 600) → status ≠ 204 →
      runStep w (Line.msg (Json.obj ms), up) = .ok [r]) := by
  obtain ⟨v, hv⟩ := Option.isSome_iff_exists.mp hid
  refine ⟨?_, ?_, ?_⟩
  · intro hfail
    obtain ⟨m, hm⟩ := handle_request_fail w ms up hid hfail
    refine ⟨errorEnvelope (-32603) m ((getKey ms "id").getD Json.null),
      by simp [runStep, hm], ?_, envErrorCode_errorEnvelope _ _ _⟩
    simp [envId_errorEnvelope, hv]
  · rintro reason body rfl
    simp [runStep, handle_request_204 w ms reason body]
  · rintro status reason r rfl h4 h204
    simp [runStep, handle_request_success w ms status reason r hid h4 h204]

/-- Witness for the corrected C1 at the request `req7` and a transport
exception. -/
theorem C1_request_output_witness :
    (getKey req7 "id").isSome = true ∧
    ((upFails (HttpResult.reqExc "down") = true →
      ∃ env, runStep w0 (Line.msg (Json.obj req7), HttpResult.reqExc "down") = .ok [env] ∧
        envId env = getKey req7 "id" ∧ envErrorCode env = some (Json.num (-32603))) ∧
    (∀ reason body, HttpResult.reqExc "down" = HttpResult.resp 204 reason body →
      runStep w0 (Line.msg (Json.obj req7), HttpResult.reqExc "down") = .ok []) ∧
    (∀ status reason r, HttpResult.reqExc "down" = HttpResult.resp status reason (Except.ok r) →
      ¬(400 ≤ status ∧ status < 600) → status ≠ 204 →
      runStep w0 (Line.msg (Json.obj req7), HttpResult.reqExc "down") = .ok [r])) :=
  ⟨rfl, C1_request_output w0 req7 (HttpResult.reqExc "down") rfl⟩

/-- Counterexample for claim C2: the claim asserts no exception from one
line's processing terminates the read loop.  The line `[]` decodes to a
JSON array; `request.get('method')` (bridge.py line 107) runs before the
`try` block and raises `AttributeError`, which the loop's inner handler
(catching only `JSONDecodeError`) misses: the loop dies via the fatal path
(`exit(1)`), and the following request — which alone would produce one
output line — is never read. -/
theorem C2_counterexample :
    run w0 [(Line.msg (Json.arr []), HttpResult.reqExc "unused"),
      (Line.msg req_id1, HttpResult.reqExc "down")] = ([], false) ∧
    (run w0 [(Line.msg req_id1, HttpResult.reqExc "down")]).1.length = 1 :=
  ⟨rfl, rfl⟩

/-- Claim C2 (corrected): for every input line that decodes to a JSON
*object*, every exception from handling it is caught inside `handle_request`
and the loop proceeds to the next line unaffected; a line decoding to a
non-object JSON value (array, string, number, boolean, null) raises before
the handler's `try` block and fatally terminates the loop. -/
theorem C2_object_line_never_kills_loop (w : MCPClientWrapper)
    (ms : List (String × Json)) (up : HttpResult) (rest : List (Line × HttpResult)) :
    ∃ out, runStep w (Line.msg (Json.obj ms), up) = .ok out ∧
      run w ((Line.msg (Json.obj ms), up) :: rest) =
        (out ++ (run w rest).1, (run w rest).2) := by
  obtain ⟨o, ho⟩ := handle_request_obj_ok w ms up
  cases o with
  | none => exact ⟨[], by simp [runStep, ho], by simp [run, runStep, ho]⟩
  | some r => exact ⟨[r], by simp [runStep, ho], by simp [run, runStep, ho]⟩

/-- Counterexample for claim C9: the claim asserts N requests always yield
exactly N output lines.  One request (`req7`, so N = 1) whose upstream call
returns HTTP 204 yields zero output lines. -/
theorem C9_counterexample :
    isReqItem (Line.msg (Json.obj req7), HttpResult.resp 204 "No Content" (Except.ok Json.null))
      = true ∧
    (run w0 [(Line.msg (Json.obj req7),
      HttpResult.resp 204 "No Content" (Except.ok Json.null))]).1 = [] :=
  ⟨rfl, rfl⟩

/-- Claim C9 (corrected): for every input sequence of decodable JSON-object
messages — requests interleaved with notifications — in which no request's
upstream call returns HTTP 204, the bridge writes exactly one line per
request and none per notification, in input order: the output list is
precisely the requests' responses, in the order the requests appeared. -/
theorem C9_request_order (w : MCPClientWrapper) (items : List (Line × HttpResult))
    (hobj : items.all (fun p => isObjMsg p.1) = true)
    (h204 : items.all (fun p => !(isReqItem p && is204 p.2)) = true) :
    run w items = ((items.filter isReqItem).map (requestResponse w), true) := by
  induction items with
  | nil => rfl
  | cons p rest ih =>
      rw [List.all_cons, Bool.and_eq_true] at hobj h204
      obtain ⟨hp, hrest⟩ := hobj
      obtain ⟨hp204, hrest204⟩ := h204
      have ihr := ih hrest hrest204
      obtain ⟨l, up⟩ := p
      cases l with
      | empty => simp [isObjMsg] at hp
      | invalid e => simp [isObjMsg] at hp
      | msg j =>
          cases j with
          | null => simp [isObjMsg] at hp
          | bool b => simp [isObjMsg] at hp
          | num n => simp [isObjMsg] at hp
          | str s => simp [isObjMsg] at hp
          | arr elems => simp [isObjMsg] at hp
          | obj ms =>
              by_cases hid : (getKey ms "id").isSome = true
              · have h2 : is204 up = false := by simpa [isReqItem, hid] using hp204
                obtain ⟨r, hr⟩ := runStep_req_one w ms up hid h2
                simp [run, hr, ihr, List.filter_cons, List.map_cons, isReqItem, hid,
                  requestResponse]
              · have hnone : getKey ms "id" = none := Option.not_isSome_iff_eq_none.mp hid
                have hs := runStep_notif w ms up hnone
                simp [run, hs, ihr, List.filter_cons, isReqItem, hnone]

/-- A concrete interleaved input: a request answered upstream, a
notification whose upstream call fails, and a request whose upstream call
fails. -/
def sample_items : List (Line × HttpResult) :=
  [(Line.msg req_id1, HttpResult.resp 200 "OK" (Except.ok body_id2)),
   (Line.msg (Json.obj notif0), HttpResult.reqExc "down"),
   (Line.msg (Json.obj req7), HttpResult.reqExc "down")]

/-- Witness for the corrected C9 on `sample_items`: two requests, one
notification, two output lines in request order. -/
theorem C9_request_order_witness :
    sample_items.all (fun p => isObjMsg p.1) = true ∧
    sample_items.all (fun p => !(isReqItem p && is204 p.2)) = true ∧
    run w0 sample_items = ((sample_items.filter isReqItem).map (requestResponse w0), true) :=
  ⟨rfl, rfl, C9_request_order w0 sample_items rfl rfl⟩
